import Mathlib

/-!
Verification of the jenkins-demo-app HTTP responder (src/server.js)
against its natural-language specification.

The server is a small Express application:

  const PORT = process.env.PORT || 3000;
  app.get(routeRoot, handler returning the greeting and the version);
  app.get(routeHealth, handler returning the health status);
  const server = app.listen(PORT, ...);
  module.exports = server;

We embed it shallowly: the process environment is a record of the two
variables the program reads; JavaScript truthiness of the `||` fallback
(undefined and the empty string are falsy) is made explicit; the two
route handlers are pure functions from the current environment to a
response; route dispatch is a function from path to an optional response,
`none` meaning the request falls through to the framework default.
-/

namespace JenkinsDemoApp

/-- The process environment restricted to the two variables the program
reads. `none` models an unset variable; `some s` a variable set to `s`. -/
structure Env where
  PORT : Option String
  VERSION : Option String
deriving DecidableEq, Repr

/-- JavaScript `e || d` for an environment read `e : Option String` with a
string default `d`: `undefined` and the empty string are falsy, every other
string is truthy and returned unchanged. Used by the root handler for
`process.env.VERSION || '1.0.0'` (src/server.js line 6). -/
def jsOrString (e : Option String) (d : String) : String :=
  match e with
  | none => d
  | some s => if s = "" then d else s

/-- A JavaScript value that is either a string or a number, as produced by
`process.env.PORT || 3000`: the fallback is the number 3000, while a
truthy environment value stays a string. -/
inductive JsValue where
  | str (s : String)
  | num (n : Nat)
deriving DecidableEq, Repr

/-- `process.env.PORT || 3000` (src/server.js line 3): `undefined` and the
empty string are falsy and give the number 3000; any other string is kept. -/
def portConst (e : Env) : JsValue :=
  match e.PORT with
  | none => JsValue.num 3000
  | some s => if s = "" then JsValue.num 3000 else JsValue.str s

/-- A JSON object with string fields, in insertion order, paired with the
HTTP status of the response. Both bodies the program produces are flat
objects of string fields. -/
structure Response where
  status : Nat
  body : List (String × String)
deriving DecidableEq, Repr

/-- The root handler (src/server.js lines 5-7): responds 200 with the
greeting and `process.env.VERSION || '1.0.0'`. The argument is the
environment current at request time, because the handler reads
`process.env.VERSION` when it runs, not at module load. -/
def rootHandler (cur : Env) : Response :=
  { status := 200
    body := [("message", "Hello from Jenkins CI/CD!"),
             ("version", jsOrString cur.VERSION "1.0.0")] }

/-- The health handler (src/server.js lines 9-11): responds 200 with a
constant body. -/
def healthHandler : Response :=
  { status := 200, body := [("status", "healthy")] }

/-- ASCII lowercasing of one character, as performed by the case-insensitive
flag of the route patterns Express compiles: uppercase A through Z map to
their lowercase counterparts, every other character is unchanged. -/
def lowerChar (c : Char) : Char :=
  if 65 ≤ c.toNat ∧ c.toNat ≤ 90 then Char.ofNat (c.toNat + 32) else c

/-- ASCII lowercasing of a string, character by character. -/
def lowerStr (s : String) : String :=
  String.mk (s.data.map lowerChar)

/-- Express default matching of a request path against a literal route
path: with strict routing off the compiled pattern allows one optional
trailing slash after the route, and with case-sensitive routing off the
comparison is ASCII case-insensitive (path-to-regexp compiles route r to
the anchored pattern for r plus an optional slash, with the i flag). So
route "/" matches "/" and "//", and route "/health" matches "/health",
"/health/", "/HEALTH", and so on. -/
def routeMatches (route path : String) : Bool :=
  lowerStr path == lowerStr route || lowerStr path == lowerStr route ++ "/"

/-- Dispatch of a GET request by path over the two registered routes,
in registration order, under Express default route matching. `none` means
no handler of this program matches and the request falls through to the
framework default not-found handling. -/
def handleGet (cur : Env) (path : String) : Option Response :=
  if routeMatches "/" path then some (rootHandler cur)
  else if routeMatches "/health" path then some healthHandler
  else none

/-- The modelled Node process: `PORT` is the module-level constant computed
once at load from the start environment (src/server.js line 3), while `env`
is the current, mutable `process.env`, which the root handler reads on each
request. -/
structure ProcState where
  PORT : JsValue
  env : Env
deriving DecidableEq, Repr

/-- Process start with environment `e`: the `PORT` constant is latched from
`e`, and the current environment initially equals `e`. -/
def startProc (e : Env) : ProcState :=
  { PORT := portConst e, env := e }

/-- Mutation of `process.env` after startup (e.g. assigning
`process.env.VERSION`): only the current environment changes; the latched
module constant is untouched. -/
def setEnv (s : ProcState) (e : Env) : ProcState :=
  { s with env := e }

/-- Handling one GET request in process state `s`: the response (if any
route matches) and the process state afterwards. The handlers only read
the environment and write the response; they assign no process-wide
variable, so the state after the request is the state before it. -/
def stepGet (s : ProcState) (path : String) : Option Response × ProcState :=
  (handleGet s.env path, s)

/-- The numeric port the listener is asked to bind. Modelled from the
runtime for the string case: Node coerces a numeric string passed to
`listen` to a number; a non-numeric string yields no valid port. The
program itself only ever passes `portConst e` (src/server.js line 13). -/
def listenPort (p : JsValue) : Option Nat :=
  match p with
  | JsValue.num n => some n
  | JsValue.str s => s.toNat?

/-- Result of starting the server process against a set of ports already
bound on the host. -/
inductive StartResult where
  | running (s : ProcState) (port : Nat)
  | exited (code : Nat)
deriving DecidableEq, Repr

/-- Modelled from the spec: src/server.js calls `app.listen(PORT, ...)`
exactly once with no error handler and no retry; the spec states that a
failure to bind the configured port at startup is fatal and terminates the
process with a non-zero exit status (Node's default handling of an
unhandled listen error, which is not code under src/). `busy` is the set
of ports already bound on the host; a single bind attempt is made. -/
def startServer (busy : List Nat) (e : Env) : StartResult :=
  match listenPort (portConst e) with
  | some p => if p ∈ busy then StartResult.exited 1 else StartResult.running (startProc e) p
  | none => StartResult.exited 1

/-- Modelled from the spec: the exported server supports a clean stop
(`server.close()`, used by the tests), and stopping the listener releases
the bound port on the host. -/
def closeServer (busy : List Nat) (p : Nat) : List Nat :=
  busy.erase p

/-- Dispatch lemma: the exact path "/" matches the root route, so the root
handler runs on the current environment. -/
theorem handleGet_root (cur : Env) : handleGet cur "/" = some (rootHandler cur) := rfl

/-- Dispatch lemma: the exact path "/health" matches the health route. -/
theorem handleGet_health (cur : Env) : handleGet cur "/health" = some healthHandler := rfl

/-- C1: with VERSION set to a non-empty string v at start, a GET request to
the root path returns status 200 with body equal to the object with message
field the greeting and version field exactly v. -/
theorem root_returns_env_version (e : Env) (v : String)
    (hv : e.VERSION = some v) (hne : v ≠ "") :
    handleGet (startProc e).env "/" =
      some { status := 200
             body := [("message", "Hello from Jenkins CI/CD!"), ("version", v)] } := by
  rw [handleGet_root]
  simp [rootHandler, startProc, jsOrString, hv, hne]

/-- Witness for C1 at VERSION = 2.3.4: the version field equals exactly
that string. -/
theorem root_returns_env_version_witness :
    handleGet (startProc { PORT := none, VERSION := some "2.3.4" }).env "/" =
      some { status := 200
             body := [("message", "Hello from Jenkins CI/CD!"), ("version", "2.3.4")] } :=
  root_returns_env_version { PORT := none, VERSION := some "2.3.4" } "2.3.4" rfl (by decide)

/-- C2: in every process state, a GET request to the health path returns
status 200 with body the object with status field healthy. -/
theorem health_route_constant (s : ProcState) :
    handleGet s.env "/health" =
      some { status := 200, body := [("status", "healthy")] } := by
  rw [handleGet_health]
  rfl

/-- C3: with VERSION unset at start, a GET request to the root path
returns a body whose version field equals 1.0.0. -/
theorem root_default_version (e : Env) (hv : e.VERSION = none) :
    handleGet (startProc e).env "/" =
      some { status := 200
             body := [("message", "Hello from Jenkins CI/CD!"), ("version", "1.0.0")] } := by
  rw [handleGet_root]
  simp [rootHandler, startProc, jsOrString, hv]

/-- Witness for C3 with an environment that leaves VERSION unset. -/
theorem root_default_version_witness :
    handleGet (startProc { PORT := none, VERSION := none }).env "/" =
      some { status := 200
             body := [("message", "Hello from Jenkins CI/CD!"), ("version", "1.0.0")] } :=
  root_default_version { PORT := none, VERSION := none } rfl

/-- C4: with PORT unset, the listener is asked to bind port 3000, and a
start on a host where 3000 is free binds it. -/
theorem default_port_3000 (e : Env) (hp : e.PORT = none) :
    listenPort (portConst e) = some 3000 ∧
    startServer [] e = StartResult.running (startProc e) 3000 := by
  constructor
  · simp [listenPort, portConst, hp]
  · simp [startServer, listenPort, portConst, hp]

/-- Witness for C4 with an environment that leaves PORT unset. -/
theorem default_port_3000_witness :
    listenPort (portConst { PORT := none, VERSION := none }) = some 3000 ∧
    startServer [] { PORT := none, VERSION := none } =
      StartResult.running (startProc { PORT := none, VERSION := none }) 3000 :=
  default_port_3000 { PORT := none, VERSION := none } rfl

/-- C5 counterexample: the claim says changing the VERSION environment
variable after startup does not change any later response of the root
route. In the code the root handler reads process.env.VERSION at request
time, so with start environment VERSION=1.0.0 and the variable changed to
2.0.0 after startup, the root response differs from the one before the
change. -/
theorem version_read_once_counterexample :
    handleGet (setEnv (startProc { PORT := none, VERSION := some "1.0.0" })
                 { PORT := none, VERSION := some "2.0.0" }).env "/" ≠
    handleGet (startProc { PORT := none, VERSION := some "1.0.0" }).env "/" := by
  decide

/-- C5 amended: the port is read from the environment exactly once at
process start and held immutable for the process lifetime, but the version
string is read from the current environment on each root request, so after
a change of the environment the root response reflects the new VERSION
value. -/
theorem port_latched_version_per_request (e0 e1 : Env) :
    (setEnv (startProc e0) e1).PORT = (startProc e0).PORT ∧
    handleGet (setEnv (startProc e0) e1).env "/" =
      some { status := 200
             body := [("message", "Hello from Jenkins CI/CD!"),
                      ("version", jsOrString e1.VERSION "1.0.0")] } := by
  constructor
  · rfl
  · rw [handleGet_root]
    simp [rootHandler, setEnv, startProc]

/-- C6: when the numeric port configured from the environment is already
bound on the host (for instance by a first instance started concurrently),
the single bind attempt fails and the process exits with the non-zero
status 1; no retry of the bind is performed. -/
theorem bind_failure_fatal (busy : List Nat) (e : Env) (p : Nat)
    (hp : listenPort (portConst e) = some p) (hb : p ∈ busy) :
    startServer busy e = StartResult.exited 1 ∧ (1 : Nat) ≠ 0 := by
  refine ⟨?_, by decide⟩
  simp [startServer, hp, hb]

/-- Witness for C6: a first instance with default configuration holds port
3000; a second instance started against that host exits with status 1. -/
theorem bind_failure_fatal_witness :
    listenPort (portConst { PORT := none, VERSION := none }) = some 3000 ∧
    3000 ∈ [3000] ∧
    startServer [3000] { PORT := none, VERSION := none } = StartResult.exited 1 ∧
    (1 : Nat) ≠ 0 :=
  ⟨by decide, by decide,
    bind_failure_fatal [3000] { PORT := none, VERSION := none } 3000 (by decide) (by decide)⟩

/-- C7: request handling is a pure stateless mapping. For a fixed
environment, two identical GET requests, whether in the same run or in two
runs started from the same environment, receive identical responses, and
handling a request leaves the process state unchanged. -/
theorem handlers_pure_stateless (s1 s2 : ProcState) (path : String)
    (h : s1.env = s2.env) :
    (stepGet s1 path).1 = (stepGet s2 path).1 ∧
    (stepGet s1 path).2 = s1 ∧ (stepGet s2 path).2 = s2 := by
  refine ⟨?_, rfl, rfl⟩
  show handleGet s1.env path = handleGet s2.env path
  rw [h]

/-- Witness for C7: two process states with the same environment but
different latched port constants answer the root path identically and are
unchanged by the request. -/
theorem handlers_pure_stateless_witness :
    ({ PORT := JsValue.num 3000, env := { PORT := none, VERSION := none } } : ProcState).env =
      ({ PORT := JsValue.num 3001, env := { PORT := none, VERSION := none } } : ProcState).env ∧
    ((stepGet { PORT := JsValue.num 3000, env := { PORT := none, VERSION := none } } "/").1 =
      (stepGet { PORT := JsValue.num 3001, env := { PORT := none, VERSION := none } } "/").1 ∧
     (stepGet { PORT := JsValue.num 3000, env := { PORT := none, VERSION := none } } "/").2 =
      { PORT := JsValue.num 3000, env := { PORT := none, VERSION := none } } ∧
     (stepGet { PORT := JsValue.num 3001, env := { PORT := none, VERSION := none } } "/").2 =
      { PORT := JsValue.num 3001, env := { PORT := none, VERSION := none } }) :=
  ⟨rfl, handlers_pure_stateless
    { PORT := JsValue.num 3000, env := { PORT := none, VERSION := none } }
    { PORT := JsValue.num 3001, env := { PORT := none, VERSION := none } } "/" rfl⟩

/-- C8 counterexample: the claim says every request whose path is neither
the root path nor the health path falls through to the framework default
not-found handling. But Express default routing is trailing-slash tolerant
and case-insensitive, so the path with a trailing slash after health is
neither of the two literal paths yet is answered 200 with the health body
by this program. -/
theorem only_two_routes_counterexample :
    "/health/" ≠ "/" ∧ "/health/" ≠ "/health" ∧
    handleGet { PORT := none, VERSION := none } "/health/" =
      some { status := 200, body := [("status", "healthy")] } := by
  refine ⟨by decide, by decide, ?_⟩
  rfl

/-- C8 amended: exactly two routes exist, matched under Express default
routing. For every path that matches neither route — its ASCII lowercasing
is none of the root path, the root path with an extra slash, the health
path, or the health path with a trailing slash — no handler of this
program matches: dispatch yields none and the request falls through to the
framework default not-found handling, so no 200 response with one of the
two specified bodies is produced by this program. -/
theorem only_two_routes_amended (cur : Env) (path : String)
    (h1 : lowerStr path ≠ "/") (h2 : lowerStr path ≠ "//")
    (h3 : lowerStr path ≠ "/health") (h4 : lowerStr path ≠ "/health/") :
    handleGet cur path = none := by
  have r1 : lowerStr "/" = "/" := rfl
  have a1 : ("/" : String) ++ "/" = "//" := rfl
  have r2 : lowerStr "/health" = "/health" := rfl
  have a2 : ("/health" : String) ++ "/" = "/health/" := rfl
  have m1 : routeMatches "/" path = false := by
    simp only [routeMatches, r1, a1, Bool.or_eq_false_iff, beq_eq_false_iff_ne]
    exact ⟨h1, h2⟩
  have m2 : routeMatches "/health" path = false := by
    simp only [routeMatches, r2, a2, Bool.or_eq_false_iff, beq_eq_false_iff_ne]
    exact ⟨h3, h4⟩
  simp [handleGet, m1, m2]

/-- Witness for C8 at a concrete unregistered path. -/
theorem only_two_routes_amended_witness :
    lowerStr "/missing" ≠ "/" ∧ lowerStr "/missing" ≠ "//" ∧
    lowerStr "/missing" ≠ "/health" ∧ lowerStr "/missing" ≠ "/health/" ∧
    handleGet { PORT := none, VERSION := none } "/missing" = none :=
  ⟨by decide, by decide, by decide, by decide,
    only_two_routes_amended { PORT := none, VERSION := none } "/missing"
      (by decide) (by decide) (by decide) (by decide)⟩

/-- C9: the listener supports a clean stop that releases the bound port.
Starting on a host where the configured port p is free binds p; after the
listener is closed, p is released, so a subsequent start configured for the
same port on that host succeeds again. -/
theorem close_releases_port (busy : List Nat) (e : Env) (p : Nat)
    (hp : listenPort (portConst e) = some p) (hfree : p ∉ busy) :
    startServer busy e = StartResult.running (startProc e) p ∧
    closeServer (p :: busy) p = busy ∧
    startServer (closeServer (p :: busy) p) e = StartResult.running (startProc e) p := by
  have hrun : startServer busy e = StartResult.running (startProc e) p := by
    simp [startServer, hp, hfree]
  refine ⟨hrun, ?_, ?_⟩
  · simp [closeServer]
  · simpa [closeServer] using hrun

/-- Witness for C9: bind 3000 on a free host, close, rebind 3000. -/
theorem close_releases_port_witness :
    listenPort (portConst { PORT := none, VERSION := none }) = some 3000 ∧
    3000 ∉ ([] : List Nat) ∧
    (startServer [] { PORT := none, VERSION := none } =
       StartResult.running (startProc { PORT := none, VERSION := none }) 3000 ∧
     closeServer [3000] 3000 = [] ∧
     startServer (closeServer [3000] 3000) { PORT := none, VERSION := none } =
       StartResult.running (startProc { PORT := none, VERSION := none }) 3000) :=
  ⟨by decide, by decide,
    close_releases_port [] { PORT := none, VERSION := none } 3000 (by decide) (by decide)⟩

/-- C10: the empty string is falsy for the JavaScript fallback, so setting
PORT to the empty string asks the listener to bind 3000 exactly as omitting
it, and setting VERSION to the empty string makes the root version field
1.0.0 exactly as omitting it. -/
theorem empty_env_same_as_unset (e : Env)
    (hp : e.PORT = some "") (hv : e.VERSION = some "") :
    listenPort (portConst e) = some 3000 ∧
    handleGet (startProc e).env "/" =
      some { status := 200
             body := [("message", "Hello from Jenkins CI/CD!"), ("version", "1.0.0")] } := by
  constructor
  · simp [listenPort, portConst, hp]
  · rw [handleGet_root]
    simp [rootHandler, startProc, jsOrString, hv]

/-- Witness for C10 with both variables set to the empty string. -/
theorem empty_env_same_as_unset_witness :
    listenPort (portConst { PORT := some "", VERSION := some "" }) = some 3000 ∧
    handleGet (startProc { PORT := some "", VERSION := some "" }).env "/" =
      some { status := 200
             body := [("message", "Hello from Jenkins CI/CD!"), ("version", "1.0.0")] } :=
  empty_env_same_as_unset { PORT := some "", VERSION := some "" } rfl rfl

end JenkinsDemoApp
